import Mathlib

/-!
Shallow embedding of the address/distance service (`src/main.py`,
`src/models.py`) and verification of its specification.

Python floats are modelled as real numbers; SQLAlchemy query results as
Lean lists in storage order; HTTP exceptions as an error value carried in
`Except`.  Each definition below names the Python function or class it
embeds.
-/

open scoped Classical

/-- `models.Addresses` (src/models.py): one row of the `addresses` table.
`id` is the integer primary key, `name` a nullable string column,
`loc_lat` and `loc_lon` float columns. -/
structure Addresses where
  id : Int
  name : Option String
  loc_lat : ℝ
  loc_lon : ℝ

instance : Inhabited Addresses := ⟨⟨0, none, 0, 0⟩⟩

/-- The pydantic request model `Address` (src/main.py lines 33-36):
an optional name and two floats.  The `Field(gte=..., lte=...)` keyword
arguments attached to `loc_lat` / `loc_lon` in the source are NOT
pydantic validation keywords (pydantic enforces `ge` / `le`); pydantic
stores them as inert extra metadata, so the model performs no range
check and accepts every pair of floats. -/
structure Address where
  name : Option String
  loc_lat : ℝ
  loc_lon : ℝ

/-- `HTTPException(status_code, detail)` as raised by this service. -/
structure HTTPException where
  status_code : Nat
  detail : String

/-- `http_exception` (src/main.py lines 194-195): the one exception the
service ever raises. -/
def http_exception : HTTPException :=
  { status_code := 404, detail := "Address not found" }

/-- `math.radians`: degrees to radians. -/
noncomputable def radians (x : ℝ) : ℝ := x * Real.pi / 180

/-- `math.atan2 y x`: the angle of the point `(x, y)`, following the C
library convention implemented by Python (`atan2 0 0 = 0`). -/
noncomputable def atan2 (y x : ℝ) : ℝ :=
  if 0 < x then Real.arctan (y / x)
  else if x < 0 then
    if 0 ≤ y then Real.arctan (y / x) + Real.pi
    else Real.arctan (y / x) - Real.pi
  else
    if 0 < y then Real.pi / 2
    else if y < 0 then -(Real.pi / 2)
    else 0

/-- The local `a` of `get_distance` (src/main.py line 211):
`sin(dlat/2)**2 + cos(lat1)*cos(lat2)*sin(dlon/2)**2`, after the four
degree inputs have been converted to radians. -/
noncomputable def hav_a (loc_lat1 loc_lon1 loc_lat2 loc_lon2 : ℝ) : ℝ :=
  Real.sin ((radians loc_lat2 - radians loc_lat1) / 2) ^ 2 +
    Real.cos (radians loc_lat1) * Real.cos (radians loc_lat2) *
      Real.sin ((radians loc_lon2 - radians loc_lon1) / 2) ^ 2

/-- `get_distance` (src/main.py lines 199-215): haversine distance in km,
`earth_r * c` with `earth_r = 6373.0` and
`c = 2 * atan2(sqrt(a), sqrt(1 - a))`. -/
noncomputable def get_distance (loc_lat1 loc_lon1 loc_lat2 loc_lon2 : ℝ) : ℝ :=
  6373.0 *
    (2 * atan2 (Real.sqrt (hav_a loc_lat1 loc_lon1 loc_lat2 loc_lon2))
      (Real.sqrt (1 - hav_a loc_lat1 loc_lon1 loc_lat2 loc_lon2)))

/-- The `for` loop of `read_address_by_given_coordinates_and_distance`
(src/main.py lines 79-87): walk the stored locations in order; skip a
location whose coordinates equal `(lat1, lon1)` exactly (the `continue`
branch), otherwise keep it when its `get_distance` to `(lat1, lon1)` is
at most `distance`. -/
noncomputable def radius_loop (lat1 lon1 distance : ℝ) :
    List Addresses → List Addresses
  | [] => []
  | p :: rest =>
    if p.loc_lat = lat1 ∧ p.loc_lon = lon1 then
      radius_loop lat1 lon1 distance rest
    else if get_distance lat1 lon1 p.loc_lat p.loc_lon ≤ distance then
      p :: radius_loop lat1 lon1 distance rest
    else
      radius_loop lat1 lon1 distance rest

/-- `read_address_by_given_coordinates_and_distance` (src/main.py lines
61-88): look up the first stored address whose coordinates equal the
request's exactly; if none exists raise `http_exception`; otherwise run
the filter loop over the full list of stored locations, using the found
address's coordinates as the center. -/
noncomputable def read_address_by_given_coordinates_and_distance
    (loc_lat loc_lon distance : ℝ) (db : List Addresses) :
    Except HTTPException (List Addresses) :=
  match db.find? (fun a => decide (a.loc_lat = loc_lat ∧ a.loc_lon = loc_lon)) with
  | none => Except.error http_exception
  | some address_model =>
    Except.ok (radius_loop address_model.loc_lat address_model.loc_lon distance db)

/-- The inner `for y in range(x+1, ...)` loop of
`read_address_by_distance_between_them` (src/main.py lines 106-113):
pair the fixed location `x` with each later location `y`, keeping the
pair when their `get_distance` is at most `distance`. -/
noncomputable def pairs_inner (x : Addresses) (distance : ℝ) :
    List Addresses → List (Addresses × Addresses)
  | [] => []
  | y :: rest =>
    if get_distance x.loc_lat x.loc_lon y.loc_lat y.loc_lon ≤ distance then
      (x, y) :: pairs_inner x distance rest
    else
      pairs_inner x distance rest

/-- `read_address_by_distance_between_them` (src/main.py lines 100-114):
the nested loops `for x in range(0, n): for y in range(x+1, n)` over the
stored locations, collecting each qualifying pair `[x, y]` in
enumeration order. -/
noncomputable def read_address_by_distance_between_them (distance : ℝ) :
    List Addresses → List (Addresses × Addresses)
  | [] => []
  | x :: rest =>
    pairs_inner x distance rest ++ read_address_by_distance_between_them distance rest

/-- The input boundary as implemented: pydantic validation of the
`Address` request model (src/main.py lines 33-36).  `gte` and `lte` are
not pydantic constraint keywords (pydantic enforces `ge` / `le`), so
pydantic stores them as inert extra metadata and performs no range
check: every submitted pair of floats is accepted. -/
def address_validate (name : Option String) (loc_lat loc_lon : ℝ) : Option Address :=
  some { name := name, loc_lat := loc_lat, loc_lon := loc_lon }

/-- `create_address` (src/main.py lines 123-133): build a new row from
the validated request model and insert it; the storage assigns the new
primary key `new_id`. -/
def create_address (address : Address) (new_id : Int) (db : List Addresses) :
    List Addresses :=
  db ++ [{ id := new_id, name := address.name,
           loc_lat := address.loc_lat, loc_lon := address.loc_lon }]

/-- `update_address` (src/main.py lines 142-158): find the first stored
address with the requested id (ids are the primary key, so at most one
row matches); raise `http_exception` when there is none, otherwise
overwrite that row's three fields with the request's. -/
def update_address (address_id : Int) (address : Address) (db : List Addresses) :
    Except HTTPException (List Addresses) :=
  match db.find? (fun a => decide (a.id = address_id)) with
  | none => Except.error http_exception
  | some _ => Except.ok (db.map fun a =>
      if a.id = address_id then
        { id := a.id, name := address.name,
          loc_lat := address.loc_lat, loc_lon := address.loc_lon }
      else a)

/-- `delete_address` (src/main.py lines 167-182): find the first stored
address with the requested id; raise `http_exception` when there is
none, otherwise delete every row with that id. -/
def delete_address (address_id : Int) (db : List Addresses) :
    Except HTTPException (List Addresses) :=
  match db.find? (fun a => decide (a.id = address_id)) with
  | none => Except.error http_exception
  | some _ => Except.ok (db.filter fun a => decide (¬a.id = address_id))

/-- Spec-side enumeration of index pairs: all `(i, j)` with
`i < j < n`, listed with `i` ascending and, for each `i`, `j`
ascending. -/
def idxPairs (n : Nat) : List (Nat × Nat) :=
  (List.range n).flatMap fun i =>
    ((List.range n).filter fun j => i < j).map fun j => (i, j)

/-- Spec-side entry for the all-pairs query: the pair of stored
addresses at indices `ij`, kept exactly when their distance is at most
`d`. -/
noncomputable def pair_entry (d : ℝ) (db : List Addresses) (ij : Nat × Nat) :
    Option (Addresses × Addresses) :=
  if get_distance (db.getD ij.1 default).loc_lat (db.getD ij.1 default).loc_lon
      (db.getD ij.2 default).loc_lat (db.getD ij.2 default).loc_lon ≤ d then
    some (db.getD ij.1 default, db.getD ij.2 default)
  else none

lemma arctan_nonneg {t : ℝ} (h : 0 ≤ t) : 0 ≤ Real.arctan t := by
  have h2 := Real.arctan_strictMono.monotone h
  rwa [Real.arctan_zero] at h2

/-- For arguments `0 ≤ y` and `0 ≤ x`, `atan2 y x` is non-negative. -/
lemma atan2_nonneg_of_nonneg {y x : ℝ} (hy : 0 ≤ y) (hx : 0 ≤ x) :
    0 ≤ atan2 y x := by
  unfold atan2
  rcases eq_or_lt_of_le hx with hx' | hx'
  · subst hx'
    simp only [lt_self_iff_false, if_false]
    rcases eq_or_lt_of_le hy with hy' | hy'
    · subst hy'
      simp
    · rw [if_pos hy']
      positivity
  · rw [if_pos hx']
    exact arctan_nonneg (div_nonneg hy hx'.le)

/-- For arguments `0 ≤ y` and `0 ≤ x`, `atan2 y x` is at most `π/2`. -/
lemma atan2_le_pi_div_two_of_nonneg {y x : ℝ} (hy : 0 ≤ y) (hx : 0 ≤ x) :
    atan2 y x ≤ Real.pi / 2 := by
  unfold atan2
  rcases eq_or_lt_of_le hx with hx' | hx'
  · subst hx'
    simp only [lt_self_iff_false, if_false]
    rcases eq_or_lt_of_le hy with hy' | hy'
    · subst hy'
      simp only [lt_self_iff_false, if_false]
      positivity
    · rw [if_pos hy']
  · rw [if_pos hx']
    exact (Real.arctan_lt_pi_div_two _).le

lemma atan2_zero_one : atan2 0 1 = 0 := by
  unfold atan2
  rw [if_pos one_pos]
  simp

/-- Half-angle identity: `sin(x/2)^2 = (1 - cos x)/2`. -/
lemma sin_sq_half_eq (x : ℝ) : Real.sin (x / 2) ^ 2 = (1 - Real.cos x) / 2 := by
  have h := Real.sin_sq_eq_half_sub (x / 2)
  rw [show (2:ℝ) * (x / 2) = x by ring] at h
  rw [h]
  ring

/-- The haversine intermediate value `a` is never negative, for every
real choice of the four degree inputs. -/
lemma hav_a_nonneg (l1 o1 l2 o2 : ℝ) : 0 ≤ hav_a l1 o1 l2 o2 := by
  unfold hav_a
  set p1 := radians l1 with hp1
  set p2 := radians l2 with hp2
  set q1 := radians o1 with hq1
  set q2 := radians o2 with hq2
  rw [sin_sq_half_eq, sin_sq_half_eq, Real.cos_sub p2 p1]
  have h1 := Real.sin_sq_add_cos_sq p1
  have h2 := Real.sin_sq_add_cos_sq p2
  have hc : -1 ≤ Real.cos (q2 - q1) := Real.neg_one_le_cos _
  have hc' : Real.cos (q2 - q1) ≤ 1 := Real.cos_le_one _
  nlinarith [sq_nonneg (Real.sin p1 - Real.sin p2),
    mul_nonneg (by linarith : (0:ℝ) ≤ 1 - Real.cos (q2 - q1))
      (sq_nonneg (Real.cos p1 + Real.cos p2)),
    mul_nonneg (by linarith : (0:ℝ) ≤ 1 + Real.cos (q2 - q1))
      (sq_nonneg (Real.cos p1 - Real.cos p2))]

/-- The haversine intermediate value `a` is at most `1`, for every real
choice of the four degree inputs. -/
lemma hav_a_le_one (l1 o1 l2 o2 : ℝ) : hav_a l1 o1 l2 o2 ≤ 1 := by
  unfold hav_a
  set p1 := radians l1 with hp1
  set p2 := radians l2 with hp2
  set q1 := radians o1 with hq1
  set q2 := radians o2 with hq2
  rw [sin_sq_half_eq, sin_sq_half_eq, Real.cos_sub p2 p1]
  have h1 := Real.sin_sq_add_cos_sq p1
  have h2 := Real.sin_sq_add_cos_sq p2
  have hc : -1 ≤ Real.cos (q2 - q1) := Real.neg_one_le_cos _
  have hc' : Real.cos (q2 - q1) ≤ 1 := Real.cos_le_one _
  nlinarith [sq_nonneg (Real.sin p1 + Real.sin p2),
    mul_nonneg (by linarith : (0:ℝ) ≤ 1 + Real.cos (q2 - q1))
      (sq_nonneg (Real.cos p1 + Real.cos p2)),
    mul_nonneg (by linarith : (0:ℝ) ≤ 1 - Real.cos (q2 - q1))
      (sq_nonneg (Real.cos p1 - Real.cos p2))]

/-- `get_distance` is never negative. -/
lemma get_distance_nonneg (l1 o1 l2 o2 : ℝ) : 0 ≤ get_distance l1 o1 l2 o2 := by
  unfold get_distance
  have h := atan2_nonneg_of_nonneg (Real.sqrt_nonneg (hav_a l1 o1 l2 o2))
    (Real.sqrt_nonneg (1 - hav_a l1 o1 l2 o2))
  nlinarith

/-- `get_distance` is bounded by `π * 6373`. -/
lemma get_distance_le (l1 o1 l2 o2 : ℝ) :
    get_distance l1 o1 l2 o2 ≤ Real.pi * 6373.0 := by
  unfold get_distance
  have h := atan2_le_pi_div_two_of_nonneg (Real.sqrt_nonneg (hav_a l1 o1 l2 o2))
    (Real.sqrt_nonneg (1 - hav_a l1 o1 l2 o2))
  nlinarith

/-- A point is at haversine distance `0` from itself. -/
lemma get_distance_self (l o : ℝ) : get_distance l o l o = 0 := by
  have ha : hav_a l o l o = 0 := by
    unfold hav_a
    simp
  unfold get_distance
  rw [ha]
  norm_num [atan2_zero_one]

/-- `hav_a` is symmetric in its two points. -/
lemma hav_a_comm (l1 o1 l2 o2 : ℝ) : hav_a l1 o1 l2 o2 = hav_a l2 o2 l1 o1 := by
  unfold hav_a
  have hs : ∀ x y : ℝ, Real.sin ((x - y) / 2) ^ 2 = Real.sin ((y - x) / 2) ^ 2 := by
    intro x y
    rw [show x - y = -(y - x) by ring, neg_div, Real.sin_neg, neg_sq]
  rw [hs (radians l2) (radians l1), hs (radians o2) (radians o1)]
  ring

/-- The filter loop of the radius query keeps, in order, exactly the
stored locations that do not share the center's coordinates and lie
within the requested distance. -/
lemma radius_loop_eq_filter (lat1 lon1 d : ℝ) (l : List Addresses) :
    radius_loop lat1 lon1 d l = l.filter fun p =>
      decide (¬(p.loc_lat = lat1 ∧ p.loc_lon = lon1) ∧
        get_distance lat1 lon1 p.loc_lat p.loc_lon ≤ d) := by
  induction l with
  | nil => rfl
  | cons p rest ih =>
    simp only [radius_loop, List.filter_cons]
    by_cases h1 : p.loc_lat = lat1 ∧ p.loc_lon = lon1
    · rw [if_pos h1, ih]
      simp [h1]
    · rw [if_neg h1]
      by_cases h2 : get_distance lat1 lon1 p.loc_lat p.loc_lon ≤ d
      · rw [if_pos h2, ih]
        simp [h1, h2]
      · rw [if_neg h2, ih]
        simp [h1, h2]

/-- The inner pairing loop written as a `filterMap` over the later
locations. -/
lemma pairs_inner_eq_filterMap (x : Addresses) (d : ℝ) (l : List Addresses) :
    pairs_inner x d l = l.filterMap fun y =>
      if get_distance x.loc_lat x.loc_lon y.loc_lat y.loc_lon ≤ d then
        some (x, y)
      else none := by
  induction l with
  | nil => rfl
  | cons y rest ih =>
    simp only [pairs_inner, List.filterMap_cons]
    by_cases h : get_distance x.loc_lat x.loc_lon y.loc_lat y.loc_lon ≤ d
    · rw [if_pos h, if_pos h, ih]
    · rw [if_neg h, if_neg h, ih]

/-- Indexing `l` over `range l.length` and filter-mapping is the same as
filter-mapping `l` itself. -/
lemma filterMap_range_getD {α β : Type} (z : α) (G : α → Option β) (l : List α) :
    (List.range l.length).filterMap (fun j => G (l.getD j z)) = l.filterMap G := by
  induction l with
  | nil => rfl
  | cons a t ih =>
    rw [List.length_cons, List.range_succ_eq_map, List.filterMap_cons,
      List.filterMap_map, List.filterMap_cons]
    have h : ((fun j => G ((a :: t).getD j z)) ∘ Nat.succ) = fun j => G (t.getD j z) := by
      funext j
      simp
    rw [h, ih, List.getD_cons_zero]

/-- Peeling the first index off the pair enumeration. -/
lemma idxPairs_succ (n : Nat) :
    idxPairs (n + 1) =
      ((List.range n).map fun j => (0, j + 1)) ++
        (idxPairs n).map fun p => (p.1 + 1, p.2 + 1) := by
  unfold idxPairs
  rw [List.range_succ_eq_map, List.flatMap_cons, List.flatMap_map, List.map_flatMap]
  congr 1
  · rw [List.filter_cons]
    have h0 : (decide (0 < 0)) = false := by decide
    rw [h0]
    simp only [Bool.false_eq_true, if_false, List.filter_map]
    have h1 : ((fun j => decide (0 < j)) ∘ Nat.succ) = fun _ => true := by
      funext j
      simp
    rw [h1, List.filter_true, List.map_map]
    rfl
  · congr 1
    funext i
    rw [List.filter_cons]
    have h0 : (decide (Nat.succ i < 0)) = false := by simp
    rw [h0]
    simp only [Bool.false_eq_true, if_false, List.filter_map]
    have h1 : ((fun j => decide (Nat.succ i < j)) ∘ Nat.succ) = fun j => decide (i < j) := by
      funext j
      simp
    rw [h1, List.map_map, List.map_map]
    rfl

/-- The all-pairs endpoint equals the spec-side enumeration: filter the
index pairs `(i, j)`, `i < j`, in lexicographic order. -/
lemma pairs_eq_spec (d : ℝ) (db : List Addresses) :
    read_address_by_distance_between_them d db =
      (idxPairs db.length).filterMap (pair_entry d db) := by
  induction db with
  | nil => rfl
  | cons a rest ih =>
    rw [List.length_cons, idxPairs_succ, List.filterMap_append]
    simp only [read_address_by_distance_between_them]
    congr 1
    · rw [List.filterMap_map, pairs_inner_eq_filterMap,
        ← filterMap_range_getD (default : Addresses)
          (fun y => if get_distance a.loc_lat a.loc_lon y.loc_lat y.loc_lon ≤ d then
            some (a, y) else none) rest]
      congr 1
    · rw [List.filterMap_map]
      have h : (pair_entry d (a :: rest) ∘ fun p => (p.1 + 1, p.2 + 1)) =
          pair_entry d rest := by
        funext p
        simp [pair_entry]
      rw [h, ih]

/-- Membership in the index-pair enumeration. -/
lemma mem_idxPairs {n i j : Nat} : (i, j) ∈ idxPairs n ↔ i < j ∧ j < n := by
  simp only [idxPairs, List.mem_flatMap, List.mem_map, List.mem_filter, List.mem_range,
    decide_eq_true_eq]
  constructor
  · rintro ⟨i', _, j', ⟨hj', hij'⟩, heq⟩
    cases heq
    exact ⟨hij', hj'⟩
  · rintro ⟨hij, hjn⟩
    exact ⟨i, lt_trans hij hjn, j, ⟨hjn, hij⟩, rfl⟩

/-- The index-pair enumeration lists each pair at most once. -/
lemma idxPairs_nodup (n : Nat) : (idxPairs n).Nodup := by
  rw [idxPairs, List.nodup_flatMap]
  constructor
  · intro i _
    refine List.Nodup.map ?_ (List.Nodup.filter _ (List.nodup_range n))
    intro a b hab
    simpa using hab
  · refine (List.nodup_range n).imp ?_
    intro a b hab
    intro p hpa hpb
    simp only [List.mem_map, List.mem_filter] at hpa hpb
    obtain ⟨j₁, _, h1⟩ := hpa
    obtain ⟨j₂, _, h2⟩ := hpb
    apply hab
    rw [← h1] at h2
    exact (Prod.mk.injEq _ _ _ _).mp h2 |>.1.symm

/-- `update_address` raises `http_exception` exactly when no stored
address has the requested id. -/
lemma update_address_error_iff (i : Int) (addr : Address) (db : List Addresses) :
    update_address i addr db = Except.error http_exception ↔ ∀ a ∈ db, a.id ≠ i := by
  unfold update_address
  cases hf : db.find? (fun a => decide (a.id = i)) with
  | none =>
    rw [List.find?_eq_none] at hf
    simp only [decide_eq_true_eq] at hf
    exact ⟨fun _ => hf, fun _ => rfl⟩
  | some a0 =>
    have hp := List.find?_some hf
    have hmem := List.mem_of_find?_eq_some hf
    simp only [decide_eq_true_eq] at hp
    constructor
    · intro hcontra
      exact absurd hcontra (by simp)
    · intro hall
      exact absurd hp (hall a0 hmem)

/-- `update_address` never raises any exception other than
`http_exception`. -/
lemma update_address_error_unique (i : Int) (addr : Address) (db : List Addresses)
    (e : HTTPException) (h : update_address i addr db = Except.error e) :
    e = http_exception := by
  unfold update_address at h
  cases hf : db.find? (fun a => decide (a.id = i)) with
  | none =>
    rw [hf] at h
    simpa using h.symm
  | some a0 =>
    rw [hf] at h
    simp at h

/-- `delete_address` raises `http_exception` exactly when no stored
address has the requested id. -/
lemma delete_address_error_iff (i : Int) (db : List Addresses) :
    delete_address i db = Except.error http_exception ↔ ∀ a ∈ db, a.id ≠ i := by
  unfold delete_address
  cases hf : db.find? (fun a => decide (a.id = i)) with
  | none =>
    rw [List.find?_eq_none] at hf
    simp only [decide_eq_true_eq] at hf
    exact ⟨fun _ => hf, fun _ => rfl⟩
  | some a0 =>
    have hp := List.find?_some hf
    have hmem := List.mem_of_find?_eq_some hf
    simp only [decide_eq_true_eq] at hp
    constructor
    · intro hcontra
      exact absurd hcontra (by simp)
    · intro hall
      exact absurd hp (hall a0 hmem)

/-- `delete_address` never raises any exception other than
`http_exception`. -/
lemma delete_address_error_unique (i : Int) (db : List Addresses)
    (e : HTTPException) (h : delete_address i db = Except.error e) :
    e = http_exception := by
  unfold delete_address at h
  cases hf : db.find? (fun a => decide (a.id = i)) with
  | none =>
    rw [hf] at h
    simpa using h.symm
  | some a0 =>
    rw [hf] at h
    simp at h

/-- The radius query raises `http_exception` exactly when no stored
address carries exactly the requested coordinates. -/
lemma radius_query_error_iff (clat clon maxd : ℝ) (db : List Addresses) :
    read_address_by_given_coordinates_and_distance clat clon maxd db =
        Except.error http_exception ↔
      ∀ a ∈ db, ¬(a.loc_lat = clat ∧ a.loc_lon = clon) := by
  unfold read_address_by_given_coordinates_and_distance
  cases hf : db.find? (fun a => decide (a.loc_lat = clat ∧ a.loc_lon = clon)) with
  | none =>
    rw [List.find?_eq_none] at hf
    simp only [decide_eq_true_eq] at hf
    exact ⟨fun _ => hf, fun _ => rfl⟩
  | some a0 =>
    have hp := List.find?_some hf
    have hmem := List.mem_of_find?_eq_some hf
    simp only [decide_eq_true_eq] at hp
    constructor
    · intro hcontra
      exact absurd hcontra (by simp)
    · intro hall
      exact absurd hp (hall a0 hmem)

/-- The radius query never raises any exception other than
`http_exception`. -/
lemma radius_query_error_unique (clat clon maxd : ℝ) (db : List Addresses)
    (e : HTTPException)
    (h : read_address_by_given_coordinates_and_distance clat clon maxd db =
      Except.error e) :
    e = http_exception := by
  unfold read_address_by_given_coordinates_and_distance at h
  cases hf : db.find? (fun a => decide (a.loc_lat = clat ∧ a.loc_lon = clon)) with
  | none =>
    rw [hf] at h
    simpa using h.symm
  | some a0 =>
    rw [hf] at h
    simp at h

/-- C1: for every list of stored points containing a point with exactly
the requested center coordinates, and every max_distance, the radius
query succeeds and returns exactly the subsequence of the input list
(input order preserved) of points whose haversine distance to the center
is at most max_distance and whose coordinates are not exactly the
center's; consequently no point sharing the center's coordinates ever
appears in the result, regardless of its id. -/
theorem radius_query_exact_filter (db : List Addresses) (clat clon maxd : ℝ)
    (h : ∃ a ∈ db, a.loc_lat = clat ∧ a.loc_lon = clon) :
    read_address_by_given_coordinates_and_distance clat clon maxd db =
      Except.ok (db.filter fun p =>
        decide (¬(p.loc_lat = clat ∧ p.loc_lon = clon) ∧
          get_distance clat clon p.loc_lat p.loc_lon ≤ maxd)) ∧
    ∀ res, read_address_by_given_coordinates_and_distance clat clon maxd db =
        Except.ok res → ∀ p ∈ res, ¬(p.loc_lat = clat ∧ p.loc_lon = clon) := by
  have hsome : (db.find? fun a =>
      decide (a.loc_lat = clat ∧ a.loc_lon = clon)).isSome := by
    rw [List.find?_isSome]
    obtain ⟨a0, hmem, hlat, hlon⟩ := h
    exact ⟨a0, hmem, by simp [hlat, hlon]⟩
  obtain ⟨am, ham⟩ := Option.isSome_iff_exists.mp hsome
  have hp := List.find?_some ham
  simp only [decide_eq_true_eq] at hp
  have hmain : read_address_by_given_coordinates_and_distance clat clon maxd db =
      Except.ok (db.filter fun p =>
        decide (¬(p.loc_lat = clat ∧ p.loc_lon = clon) ∧
          get_distance clat clon p.loc_lat p.loc_lon ≤ maxd)) := by
    unfold read_address_by_given_coordinates_and_distance
    rw [ham]
    show Except.ok (radius_loop am.loc_lat am.loc_lon maxd db) = _
    rw [hp.1, hp.2, radius_loop_eq_filter]
  refine ⟨hmain, ?_⟩
  intro res hres p hpres
  rw [hmain, Except.ok.injEq] at hres
  subst hres
  rw [List.mem_filter, decide_eq_true_eq] at hpres
  exact hpres.2.1

/-- Witness for the radius-query theorem: with two stored addresses both
at (0,0) and the center (0,0), the query succeeds and excludes both (the
second despite its different id), returning the empty list. -/
theorem radius_query_exact_filter_witness :
    read_address_by_given_coordinates_and_distance 0 0 5
      [({ id := 1, name := none, loc_lat := 0, loc_lon := 0 } : Addresses),
       { id := 2, name := none, loc_lat := 0, loc_lon := 0 }] =
      Except.ok [] := by
  have h := radius_query_exact_filter
    [({ id := 1, name := none, loc_lat := 0, loc_lon := 0 } : Addresses),
     { id := 2, name := none, loc_lat := 0, loc_lon := 0 }] 0 0 5
    ⟨{ id := 1, name := none, loc_lat := 0, loc_lon := 0 }, by simp, rfl, rfl⟩
  rw [h.1]
  simp

/-- C2: for every list of stored points and every max_distance, the
all-pairs query equals the filter of the index pairs (i, j), i < j, in
lexicographic enumeration order (i ascending, then j ascending), keeping
a pair exactly when the haversine distance between its points is at most
max_distance; the enumeration lists each unordered pair exactly once. -/
theorem all_pairs_enumeration (d : ℝ) (db : List Addresses) :
    read_address_by_distance_between_them d db =
      (idxPairs db.length).filterMap (pair_entry d db) ∧
    (idxPairs db.length).Nodup ∧
    (∀ p ∈ idxPairs db.length, p.1 < p.2 ∧ p.2 < db.length) ∧
    (∀ i j : Nat, i < j → j < db.length → (i, j) ∈ idxPairs db.length) := by
  refine ⟨pairs_eq_spec d db, idxPairs_nodup _, ?_,
    fun i j hij hj => mem_idxPairs.mpr ⟨hij, hj⟩⟩
  intro p hp
  obtain ⟨i, j⟩ := p
  exact mem_idxPairs.mp hp

/-- Witness for the all-pairs theorem: two stored addresses at the same
coordinates and max_distance 0 produce exactly the one pair (A, B). -/
theorem all_pairs_enumeration_witness :
    read_address_by_distance_between_them 0
      [({ id := 1, name := none, loc_lat := 0, loc_lon := 0 } : Addresses),
       { id := 2, name := none, loc_lat := 0, loc_lon := 0 }] =
      [(({ id := 1, name := none, loc_lat := 0, loc_lon := 0 } : Addresses),
        ({ id := 2, name := none, loc_lat := 0, loc_lon := 0 } : Addresses))] := by
  have h := all_pairs_enumeration 0
    [({ id := 1, name := none, loc_lat := 0, loc_lon := 0 } : Addresses),
     { id := 2, name := none, loc_lat := 0, loc_lon := 0 }]
  rw [h.1]
  have h2 : idxPairs 2 = [(0, 1)] := rfl
  simp only [List.length_cons, List.length_nil, h2, List.filterMap_cons,
    List.filterMap_nil]
  simp [pair_entry, get_distance_self]

/-- C3: `get_distance` computes exactly the haversine formula of the
spec: the four degree inputs converted to radians (x·π/180), the
differences dlat = lat2 − lat1 and dlon = lon2 − lon1,
a = sin²(dlat/2) + cos(lat1)·cos(lat2)·sin²(dlon/2),
c = 2·atan2(√a, √(1−a)), and the result R·c with R = 6373.0. -/
theorem get_distance_formula (lat1 lon1 lat2 lon2 : ℝ) :
    get_distance lat1 lon1 lat2 lon2 =
      6373.0 * (2 * atan2
        (Real.sqrt (Real.sin ((lat2 * Real.pi / 180 - lat1 * Real.pi / 180) / 2) ^ 2 +
          Real.cos (lat1 * Real.pi / 180) * Real.cos (lat2 * Real.pi / 180) *
            Real.sin ((lon2 * Real.pi / 180 - lon1 * Real.pi / 180) / 2) ^ 2))
        (Real.sqrt (1 -
          (Real.sin ((lat2 * Real.pi / 180 - lat1 * Real.pi / 180) / 2) ^ 2 +
            Real.cos (lat1 * Real.pi / 180) * Real.cos (lat2 * Real.pi / 180) *
              Real.sin ((lon2 * Real.pi / 180 - lon1 * Real.pi / 180) / 2) ^ 2)))) :=
  rfl

/-- Witness for the formula theorem at the concrete input (1, 2, 3, 4). -/
theorem get_distance_formula_witness :
    get_distance 1 2 3 4 =
      6373.0 * (2 * atan2
        (Real.sqrt (Real.sin ((3 * Real.pi / 180 - 1 * Real.pi / 180) / 2) ^ 2 +
          Real.cos (1 * Real.pi / 180) * Real.cos (3 * Real.pi / 180) *
            Real.sin ((4 * Real.pi / 180 - 2 * Real.pi / 180) / 2) ^ 2))
        (Real.sqrt (1 -
          (Real.sin ((3 * Real.pi / 180 - 1 * Real.pi / 180) / 2) ^ 2 +
            Real.cos (1 * Real.pi / 180) * Real.cos (3 * Real.pi / 180) *
              Real.sin ((4 * Real.pi / 180 - 2 * Real.pi / 180) / 2) ^ 2)))) :=
  get_distance_formula 1 2 3 4

/-- C4 (the claimed boundary rejection does not happen in the code): the
pydantic `Address` model as written performs no range validation, so a
request with latitude 1000 passes the input boundary and its values
reach storage unchanged, violating the claimed stored-Address
invariant. -/
theorem boundary_accepts_out_of_range :
    address_validate (some "x") 1000 0 =
      some { name := some "x", loc_lat := 1000, loc_lon := 0 } ∧
    ∃ a ∈ create_address { name := some "x", loc_lat := 1000, loc_lon := 0 } 7 [],
      ¬(-90 ≤ a.loc_lat ∧ a.loc_lat ≤ 90) := by
  refine ⟨rfl, ⟨{ id := 7, name := some "x", loc_lat := 1000, loc_lon := 0 }, ?_, ?_⟩⟩
  · simp [create_address]
  · intro hc
    have h2 := hc.2
    norm_num at h2

/-- C5: `http_exception` is a 404 with the fixed message
"Address not found", and it is returned exactly when an update targets
an id with no stored address, a delete targets an id with no stored
address, or the radius query's center coordinates exactly match no
stored point; no other exception value is ever produced, and on success
none is produced. -/
theorem not_found_exactly (address_id : Int) (address : Address)
    (db : List Addresses) (clat clon maxd : ℝ) :
    http_exception.status_code = 404 ∧
    http_exception.detail = "Address not found" ∧
    (update_address address_id address db = Except.error http_exception ↔
      ∀ a ∈ db, a.id ≠ address_id) ∧
    (∀ e, update_address address_id address db = Except.error e →
      e = http_exception) ∧
    (delete_address address_id db = Except.error http_exception ↔
      ∀ a ∈ db, a.id ≠ address_id) ∧
    (∀ e, delete_address address_id db = Except.error e → e = http_exception) ∧
    (read_address_by_given_coordinates_and_distance clat clon maxd db =
        Except.error http_exception ↔
      ∀ a ∈ db, ¬(a.loc_lat = clat ∧ a.loc_lon = clon)) ∧
    (∀ e, read_address_by_given_coordinates_and_distance clat clon maxd db =
        Except.error e → e = http_exception) :=
  ⟨rfl, rfl, update_address_error_iff _ _ _,
    fun e he => update_address_error_unique _ _ _ e he,
    delete_address_error_iff _ _,
    fun e he => delete_address_error_unique _ _ e he,
    radius_query_error_iff _ _ _ _,
    fun e he => radius_query_error_unique _ _ _ _ e he⟩

/-- Witness for the NotFound theorem: against an empty store, update,
delete and the radius query each return `http_exception`. -/
theorem not_found_exactly_witness :
    update_address 1 { name := none, loc_lat := 0, loc_lon := 0 } [] =
      Except.error http_exception ∧
    delete_address 1 [] = Except.error http_exception ∧
    read_address_by_given_coordinates_and_distance 0 0 1 [] =
      Except.error http_exception := by
  have h := not_found_exactly 1 { name := none, loc_lat := 0, loc_lon := 0 } [] 0 0 1
  exact ⟨h.2.2.1.mpr (by simp), h.2.2.2.2.1.mpr (by simp), h.2.2.2.2.2.2.1.mpr (by simp)⟩

/-- C6: `get_distance` is total over its whole real input domain: both
square-root arguments a and 1 − a are non-negative (no branch of the
computation leaves the defined domain), and the returned distance is a
non-negative real. -/
theorem get_distance_total_nonneg (lat1 lon1 lat2 lon2 : ℝ) :
    0 ≤ hav_a lat1 lon1 lat2 lon2 ∧
    0 ≤ 1 - hav_a lat1 lon1 lat2 lon2 ∧
    0 ≤ get_distance lat1 lon1 lat2 lon2 :=
  ⟨hav_a_nonneg _ _ _ _,
    by have h := hav_a_le_one lat1 lon1 lat2 lon2; linarith,
    get_distance_nonneg _ _ _ _⟩

/-- Witness for the totality theorem at the input (200, -300, 90, 540),
far outside the valid coordinate ranges. -/
theorem get_distance_total_nonneg_witness :
    0 ≤ hav_a 200 (-300) 90 540 ∧
    0 ≤ 1 - hav_a 200 (-300) 90 540 ∧
    0 ≤ get_distance 200 (-300) 90 540 :=
  get_distance_total_nonneg 200 (-300) 90 540

/-- C7: for valid coordinates (latitudes in [-90, 90], longitudes in
[-180, 180]) the computed distance lies between 0 and π·R with
R = 6373.0. -/
theorem get_distance_bounded (lat1 lon1 lat2 lon2 : ℝ)
    (h1 : -90 ≤ lat1) (h2 : lat1 ≤ 90) (h3 : -180 ≤ lon1) (h4 : lon1 ≤ 180)
    (h5 : -90 ≤ lat2) (h6 : lat2 ≤ 90) (h7 : -180 ≤ lon2) (h8 : lon2 ≤ 180) :
    0 ≤ get_distance lat1 lon1 lat2 lon2 ∧
    get_distance lat1 lon1 lat2 lon2 ≤ Real.pi * 6373.0 :=
  ⟨get_distance_nonneg _ _ _ _, get_distance_le _ _ _ _⟩

/-- Witness for the bound theorem at the valid input (0, 0, 45, 90). -/
theorem get_distance_bounded_witness :
    0 ≤ get_distance 0 0 45 90 ∧
    get_distance 0 0 45 90 ≤ Real.pi * 6373.0 :=
  get_distance_bounded 0 0 45 90 (by norm_num) (by norm_num) (by norm_num)
    (by norm_num) (by norm_num) (by norm_num) (by norm_num) (by norm_num)

/-- C8: for every valid point, the distance from the point to itself is
exactly 0. -/
theorem get_distance_self_zero (lat lon : ℝ)
    (h1 : -90 ≤ lat) (h2 : lat ≤ 90) (h3 : -180 ≤ lon) (h4 : lon ≤ 180) :
    get_distance lat lon lat lon = 0 :=
  get_distance_self lat lon

/-- Witness for the self-distance theorem at the valid point (42, 7). -/
theorem get_distance_self_zero_witness : get_distance 42 7 42 7 = 0 :=
  get_distance_self_zero 42 7 (by norm_num) (by norm_num) (by norm_num)
    (by norm_num)

/-- C9: for every two valid points the distance function is symmetric. -/
theorem get_distance_symmetric (lat1 lon1 lat2 lon2 : ℝ)
    (h1 : -90 ≤ lat1) (h2 : lat1 ≤ 90) (h3 : -180 ≤ lon1) (h4 : lon1 ≤ 180)
    (h5 : -90 ≤ lat2) (h6 : lat2 ≤ 90) (h7 : -180 ≤ lon2) (h8 : lon2 ≤ 180) :
    get_distance lat1 lon1 lat2 lon2 = get_distance lat2 lon2 lat1 lon1 := by
  unfold get_distance
  rw [hav_a_comm]

/-- Witness for the symmetry theorem at the valid points (10, 20) and
(30, 40). -/
theorem get_distance_symmetric_witness :
    get_distance 10 20 30 40 = get_distance 30 40 10 20 :=
  get_distance_symmetric 10 20 30 40 (by norm_num) (by norm_num) (by norm_num)
    (by norm_num) (by norm_num) (by norm_num) (by norm_num) (by norm_num)

/-- C10: the all-pairs query applies no exact-coordinate exclusion: two
distinct stored addresses (indices i < j) with exactly equal coordinates
are at distance 0, so for every max_distance ≥ 0 their pair appears in
the all-pairs result. -/
theorem all_pairs_no_coordinate_exclusion (db : List Addresses) (i j : Nat)
    (hij : i < j) (hj : j < db.length) (maxd : ℝ) (hmax : 0 ≤ maxd)
    (hlat : (db.getD i default).loc_lat = (db.getD j default).loc_lat)
    (hlon : (db.getD i default).loc_lon = (db.getD j default).loc_lon) :
    (db.getD i default, db.getD j default) ∈
      read_address_by_distance_between_them maxd db := by
  rw [pairs_eq_spec, List.mem_filterMap]
  refine ⟨(i, j), mem_idxPairs.mpr ⟨hij, hj⟩, ?_⟩
  have hdist : get_distance (db.getD i default).loc_lat (db.getD i default).loc_lon
      (db.getD j default).loc_lat (db.getD j default).loc_lon ≤ maxd := by
    rw [hlat, hlon, get_distance_self]
    exact hmax
  unfold pair_entry
  rw [if_pos hdist]

/-- Witness for the no-exclusion theorem: two addresses with different
ids at the identical point (5, 6) and max_distance 0 yield their pair in
the output. -/
theorem all_pairs_no_coordinate_exclusion_witness :
    (([({ id := 1, name := none, loc_lat := 5, loc_lon := 6 } : Addresses),
        { id := 2, name := none, loc_lat := 5, loc_lon := 6 }]).getD 0 default,
      ([({ id := 1, name := none, loc_lat := 5, loc_lon := 6 } : Addresses),
        { id := 2, name := none, loc_lat := 5, loc_lon := 6 }]).getD 1 default) ∈
      read_address_by_distance_between_them 0
        [({ id := 1, name := none, loc_lat := 5, loc_lon := 6 } : Addresses),
         { id := 2, name := none, loc_lat := 5, loc_lon := 6 }] :=
  all_pairs_no_coordinate_exclusion
    [({ id := 1, name := none, loc_lat := 5, loc_lon := 6 } : Addresses),
     { id := 2, name := none, loc_lat := 5, loc_lon := 6 }]
    0 1 (by norm_num) (by simp) 0 le_rfl rfl rfl
